import Mathlib

/-!
Shallow embedding of the alphageometry proof/solution verifiers
(`proof_verifier.py`, `solution_verifier.py`).

The external collaborators (`problem.py`, `graph.py`, `dd.py`, `ddar.py`)
are not part of the verified sources; they appear as oracle parameters
(functions returning `Except GeoError _`, an `Except.error` modelling a
raised Python exception), with their error-raising behaviour modelled
from the specification.  All string manipulation mirrors the Python
string operations used by the sources (strip, rstrip of semicolons,
split, substring containment, replace of newlines).
-/

set_option autoImplicit false

namespace AlphaGeo

/-- Error taxonomy of the specification.  Modelled from the spec:
the exception kinds that the external collaborators
(problem parsing, graph building, node resolution, predicate checking,
fact assertion, the DD/AR engine) can raise. -/
inductive GeoError where
  | parseError (msg : String)
  | unknownObject (nm : String)
  | unsupportedPredicate (nm : String)
  | malformedFact (msg : String)
  | constructionError (msg : String)
  | otherError (msg : String)
  deriving DecidableEq

/-- Modelled from the spec: a parsed goal clause of `problem.py`
(`p.goal`), a predicate name applied to argument names.  The source
only reads `p.goal.name` and `p.goal.args`. -/
structure Construction where
  name : String
  args : List String
  deriving DecidableEq

/-- Modelled from the spec: the external `problem.py` `Problem` type.
The code under verification only consults the optional goal; the
construction clauses are consumed opaquely by the graph-build oracle. -/
structure Problem where
  goal : Option Construction
  deriving DecidableEq

/-- Justification tag attached to an asserted fact, mirroring
`pr.EmptyDependency(level=..., rule_name=...)`. -/
structure Dep where
  level : Nat
  rule_name : String
  deriving DecidableEq

/-- The justification used for context facts:
`pr.EmptyDependency(level=0, rule_name="verified")`. -/
def verifiedDep : Dep := ⟨0, "verified"⟩

/-- Modelled from the spec: the operations of the external fact graph
(`graph.py`) that the verified code calls on an already-built graph.
`σ` is the graph state, `ν` the node handle type.  Each operation can
raise (return `.error`). -/
structure GraphOps (σ ν : Type) where
  namesToNodes : σ → List String → Except GeoError (List ν)
  check : σ → String → List ν → Except GeoError Bool
  addPiece : σ → String → List ν → Dep → Except GeoError σ

/-! ### Python string primitives -/

/-- Python `str.strip()`: remove leading and trailing whitespace. -/
def pyStrip (s : String) : String :=
  String.mk (((s.data.dropWhile Char.isWhitespace).reverse.dropWhile
    Char.isWhitespace).reverse)

/-- Python `str.rstrip(";")`: remove trailing semicolons. -/
def rstripSemi (s : String) : String :=
  String.mk ((s.data.reverse.dropWhile (fun c => c = ';')).reverse)

/-- Python `c in s` for a single character. -/
def containsChar (c : Char) (s : String) : Bool :=
  s.data.any (fun x => x = c)

/-- Helper for `splitOnPred`: accumulate the current chunk. -/
def splitPredAux (p : Char → Bool) : List Char → List Char → List String
  | [], acc => [String.mk acc.reverse]
  | x :: xs, acc =>
    if p x then String.mk acc.reverse :: splitPredAux p xs []
    else splitPredAux p xs (x :: acc)

/-- Python `str.split(sep)` semantics (keeps empty chunks) generalised
to a character predicate. -/
def splitOnPred (p : Char → Bool) (s : String) : List String :=
  splitPredAux p s.data []

/-- Python `str.split(';')`. -/
def splitSemi (s : String) : List String :=
  splitOnPred (fun c => c = ';') s

/-- Python `str.replace('\n', ';')`. -/
def replaceNewlines (s : String) : String :=
  String.mk (s.data.map (fun c => if c = '\n' then ';' else c))

/-- List prefix test used by `isSubstr`. -/
def isPrefixList : List Char → List Char → Bool
  | [], _ => true
  | _ :: _, [] => false
  | a :: as, b :: bs => if a = b then isPrefixList as bs else false

/-- Helper for `isSubstr`: try every suffix of the haystack. -/
def isSubstrAux (needle : List Char) : List Char → Bool
  | [] => needle.isEmpty
  | x :: rest =>
    if isPrefixList needle (x :: rest) then true else isSubstrAux needle rest

/-- Python substring containment `needle in hay`. -/
def isSubstr (needle hay : String) : Bool :=
  isSubstrAux needle.data hay.data

/-- Python `problem_txt.split("?", 1)` guarded by `if "?" in problem_txt`
(source `proof_verifier.py` lines 154-157): premises and goal text. -/
def splitQ (s : String) : String × String :=
  if containsChar '?' s then
    (String.mk (s.data.takeWhile (fun c => c ≠ '?')),
     String.mk ((s.data.dropWhile (fun c => c ≠ '?')).drop 1))
  else (s, "")

/-! ### ProofVerifier -/

/-- `ProofVerifier._is_construction`: a clause containing `=`. -/
def is_construction (dsl : String) : Bool :=
  containsChar '=' dsl

/-- `ProofVerifier._parse_predicate`: split on whitespace; fewer than two
parts raises `ValueError`, modelled as `none`. -/
def parse_predicate (s : String) : Option (String × List String) :=
  match (splitOnPred Char.isWhitespace (pyStrip s)).filter (fun t => t != "") with
  | p :: a :: rest => some (p, a :: rest)
  | _ => none

/-- Body of the loop of `ProofVerifier._add_verified_predicates_to_graph`
for one already-stripped clause.  Every raised exception is swallowed:
a failing resolve, check, or assert leaves the graph unchanged. -/
def add_verified_clause {σ ν : Type} (ops : GraphOps σ ν) (g : σ)
    (clause : String) : σ :=
  if isSubstr " = " clause then g
  else
    match parse_predicate clause with
    | none => g
    | some (pname, pargs) =>
      match ops.namesToNodes g pargs with
      | .error _ => g
      | .ok nodes =>
        match ops.check g pname nodes with
        | .error _ => g
        | .ok true => g
        | .ok false =>
          match ops.addPiece g pname nodes verifiedDep with
          | .error _ => g
          | .ok g2 => g2

/-- `ProofVerifier._add_verified_predicates_to_graph`: split the context
on `;`, strip, drop empties, and process each clause in order. -/
def add_verified_predicates_to_graph {σ ν : Type} (ops : GraphOps σ ν)
    (g : σ) (contextStr : String) : σ :=
  (((splitSemi contextStr).map pyStrip).filter (fun c => c != "")).foldl
    (add_verified_clause ops) g

/-- The inner `goal_holds` closure of `ProofVerifier._run_bfs_check`:
`g.names2nodes(p.goal.args)` is evaluated outside the `try` block, so a
resolution error propagates (`.error`); an error raised by `g.check` is
caught and downgraded to `False`. -/
def goal_holds {σ ν : Type} (ops : GraphOps σ ν) (goal : Construction)
    (g : σ) : Except GeoError Bool :=
  match ops.namesToNodes g goal.args with
  | .error e => .error e
  | .ok goalArgs =>
    match ops.check g goal.name goalArgs with
    | .error _ => .ok false
    | .ok b => .ok b

/-- The `for level in range(1, max_level + 1)` loop of
`ProofVerifier._run_bfs_check`, in state-passing style; the first
argument is the number of remaining levels, the second the current
level.  `bfsOne` models `dd.bfs_one_level` (returning the new graph
state plus `added`, `derives`, `eq4s`), `applyDer` models
`dd.apply_derivations`; each is applied only to a non-empty list, as in
the source.  After the loop the source returns one more `goal_holds()`.
The final graph state is returned alongside the boolean. -/
def bfs_levels {σ ν α β : Type} (ops : GraphOps σ ν) (goal : Construction)
    (bfsOne : σ → Nat → Except GeoError (σ × List α × List β × List β))
    (applyDer : σ → List β → Except GeoError σ) :
    Nat → Nat → σ → Except GeoError (Bool × σ)
  | 0, _, g =>
    match goal_holds ops goal g with
    | .error e => .error e
    | .ok h => .ok (h, g)
  | r + 1, level, g =>
    match goal_holds ops goal g with
    | .error e => .error e
    | .ok true => .ok (true, g)
    | .ok false =>
      match bfsOne g level with
      | .error e => .error e
      | .ok (g1, _added, derives, eq4s) =>
        match (if derives.isEmpty then .ok g1 else applyDer g1 derives :
            Except GeoError σ) with
        | .error e => .error e
        | .ok g2 =>
          match (if eq4s.isEmpty then .ok g2 else applyDer g2 eq4s :
              Except GeoError σ) with
          | .error e => .error e
          | .ok g3 =>
            match goal_holds ops goal g3 with
            | .error e => .error e
            | .ok true => .ok (true, g3)
            | .ok false =>
              bfs_levels ops goal bfsOne applyDer r (level + 1) g3

/-- `ProofVerifier._run_bfs_check`.  `fromTxt` models
`pr.Problem.from_txt`, `build` models `gh.Graph.build_problem` (with the
definition tables already applied).  Parse errors and build errors are
caught (`return False`); after that, a problem without goal yields
`False`; otherwise the deepening loop runs from level 1. -/
def run_bfs_check {σ ν α β : Type} (ops : GraphOps σ ν)
    (fromTxt : String → Except GeoError Problem)
    (build : Problem → Except GeoError σ)
    (bfsOne : σ → Nat → Except GeoError (σ × List α × List β × List β))
    (applyDer : σ → List β → Except GeoError σ)
    (contextStr targetStr : String) (maxLevel : Nat) :
    Except GeoError Bool :=
  let target := rstripSemi (pyStrip targetStr)
  let ctx := rstripSemi (pyStrip contextStr)
  match fromTxt (ctx ++ " ? " ++ target) with
  | .error _ => .ok false
  | .ok p =>
    match build p with
    | .error _ => .ok false
    | .ok g0 =>
      let g1 := add_verified_predicates_to_graph ops g0 ctx
      match p.goal with
      | none => .ok false
      | some goal =>
        match bfs_levels ops goal bfsOne applyDer maxLevel 1 g1 with
        | .error e => .error e
        | .ok (b, _) => .ok b

/-- The distinct `error_msg` values produced by
`ProofVerifier.verify_proof`. -/
inductive Msg where
  | noSteps
  | logicGap (stepNum : Nat) (clause : String)
  | verifiedNoGoal
  | success
  | goalNotReached
  deriving DecidableEq

/-- The result record of `ProofVerifier.verify_proof`. -/
structure VResult where
  is_valid : Bool
  error_msg : Msg
  steps_passed : Nat
  goal_reached : Bool
  deriving DecidableEq

/-- Step parsing of `verify_proof`:
`[s.strip() for s in proof_dsl.replace('\n', ';').split(';') if s.strip()]`. -/
def parse_steps (proofDsl : String) : List String :=
  (((splitSemi (replaceNewlines proofDsl)).map pyStrip).filter
    (fun s => s != ""))

/-- The per-step loop of `verify_proof` (source lines 171-192), in
accumulator style: `ctx` is `current_context`, `i` the 0-based enumerate
index.  A construction step already contained (as a substring) in the
context is skipped, otherwise appended unconditionally; a derivation
step runs `_run_bfs_check(ctx, step, max_level=3)` (the oracle `bfs`),
appending on success and stopping with `.inl (i, step)` on failure; an
exception from the check propagates. -/
def verify_steps (bfs : String → String → Nat → Except GeoError Bool) :
    String → Nat → List String → Except GeoError (Sum (Nat × String) String)
  | ctx, _, [] => .ok (.inr ctx)
  | ctx, i, s :: rest =>
    if is_construction s then
      if isSubstr s ctx then verify_steps bfs ctx (i + 1) rest
      else verify_steps bfs (ctx ++ "; " ++ s) (i + 1) rest
    else
      match bfs ctx s 3 with
      | .error e => .error e
      | .ok true => verify_steps bfs (ctx ++ "; " ++ s) (i + 1) rest
      | .ok false => .ok (.inl (i, s))

/-- `ProofVerifier.verify_proof`, with `_run_bfs_check` abstracted as the
oracle `bfs` (per-step checks use `max_level=3`, the final goal check
`max_level=10`). -/
def verify_proof (bfs : String → String → Nat → Except GeoError Bool)
    (problemTxt proofDsl : String) : Except GeoError VResult :=
  let pg := splitQ problemTxt
  let ctx0 := pyStrip pg.1
  let steps := parse_steps proofDsl
  if steps.isEmpty then .ok ⟨false, .noSteps, 0, false⟩
  else
    match verify_steps bfs ctx0 0 steps with
    | .error e => .error e
    | .ok (.inl (i, s)) => .ok ⟨false, .logicGap (i + 1) s, i, false⟩
    | .ok (.inr ctxF) =>
      if pyStrip pg.2 = "" then .ok ⟨true, .verifiedNoGoal, steps.length, true⟩
      else
        match bfs ctxF (pyStrip pg.2) 10 with
        | .error e => .error e
        | .ok true => .ok ⟨true, .success, steps.length, true⟩
        | .ok false => .ok ⟨false, .goalNotReached, steps.length, false⟩

/-! ### SolutionVerifier -/

/-- `SolutionVerifier.inject_solution`. -/
def inject_solution (problemTxt : String) (solutionTxt : Option String) :
    String :=
  let prob := pyStrip problemTxt
  match solutionTxt with
  | none => prob
  | some st =>
    if st = "" then prob
    else
      let sol := rstripSemi (pyStrip st)
      if sol = "" then prob
      else if !(containsChar '?' prob) then rstripSemi prob ++ "; " ++ sol
      else
        let lr := splitQ prob
        rstripSemi (pyStrip lr.1) ++ "; " ++ sol ++ " ? " ++ pyStrip lr.2

/-- `SolutionVerifier.verify`.  Only the parse is inside a `try`; the
goal-absence test returns `False`; `gh.Graph.build_problem` and
`ddar.solve` run unguarded, so their exceptions propagate.  `solve`
models `ddar.solve`, whose third component is the status string compared
with `"solved"`. -/
def verify {σ : Type} (fromTxt : String → Except GeoError Problem)
    (build : Problem → Except GeoError σ)
    (solve : σ → Problem → Except GeoError String)
    (problemTxt : String) (solution : Option String) :
    Except GeoError Bool :=
  let full := inject_solution problemTxt solution
  match fromTxt full with
  | .error _ => .ok false
  | .ok p =>
    match p.goal with
    | none => .ok false
    | some _ =>
      match build p with
      | .error e => .error e
      | .ok g =>
        match solve g p with
        | .error e => .error e
        | .ok status => .ok (status == "solved")

/-! ### Statement scaffolding

Helper predicates used to state the claims about `verify_proof`: which
steps pass, and which context the loop has accumulated.  They mirror the
loop of `verify_steps` exactly. -/

/-- Every step of the list passes under `verify_steps` starting from
`ctx`: construction steps always pass; a derivation step passes iff the
oracle check on the accumulated context returns `.ok true`. -/
def steps_all_pass (bfs : String → String → Nat → Except GeoError Bool) :
    String → List String → Bool
  | _, [] => true
  | ctx, s :: rest =>
    if is_construction s then
      if isSubstr s ctx then steps_all_pass bfs ctx rest
      else steps_all_pass bfs (ctx ++ "; " ++ s) rest
    else
      match bfs ctx s 3 with
      | .ok true => steps_all_pass bfs (ctx ++ "; " ++ s) rest
      | _ => false

/-- The context accumulated by `verify_steps` after a list of passing
steps. -/
def ctx_after (bfs : String → String → Nat → Except GeoError Bool) :
    String → List String → String
  | ctx, [] => ctx
  | ctx, s :: rest =>
    if is_construction s then
      if isSubstr s ctx then ctx_after bfs ctx rest
      else ctx_after bfs (ctx ++ "; " ++ s) rest
    else ctx_after bfs (ctx ++ "; " ++ s) rest

/-- Iterate a per-level state transition over levels
`level, level + 1, ...` for `r` levels (used to state that `bfs_levels`
attempts every level). -/
def fold_levels {σ : Type} (step : σ → Nat → σ) : Nat → Nat → σ → σ
  | 0, _, g => g
  | r + 1, level, g => fold_levels step r (level + 1) (step g level)

/-- If every step passes, the loop reaches the end with the accumulated
context. -/
theorem verify_steps_all_pass
    (bfs : String → String → Nat → Except GeoError Bool) :
    ∀ (steps : List String) (ctx : String) (i : Nat),
      steps_all_pass bfs ctx steps = true →
      verify_steps bfs ctx i steps = .ok (.inr (ctx_after bfs ctx steps)) := by
  intro steps
  induction steps with
  | nil => intro ctx i _; rfl
  | cons s rest ih =>
    intro ctx i h
    cases hc : is_construction s with
    | true =>
      cases hs : isSubstr s ctx with
      | true =>
        simp only [steps_all_pass, hc, hs, if_true] at h
        simpa [verify_steps, ctx_after, hc, hs] using ih ctx (i + 1) h
      | false =>
        simp only [steps_all_pass, hc, hs, if_true, Bool.false_eq_true,
          if_false] at h
        simpa [verify_steps, ctx_after, hc, hs] using
          ih (ctx ++ "; " ++ s) (i + 1) h
    | false =>
      cases hb : bfs ctx s 3 with
      | error e => simp [steps_all_pass, hc, hb] at h
      | ok b =>
        cases b with
        | false => simp [steps_all_pass, hc, hb] at h
        | true =>
          simp only [steps_all_pass, hc, hb, Bool.false_eq_true, if_false] at h
          simpa [verify_steps, ctx_after, hc, hb] using
            ih (ctx ++ "; " ++ s) (i + 1) h

/-- If the steps before `bad` all pass and `bad` is a failing derivation
step, the loop stops at `bad` with its index, whatever comes after. -/
theorem verify_steps_first_fail
    (bfs : String → String → Nat → Except GeoError Bool) :
    ∀ (pre : List String) (ctx : String) (i : Nat) (bad : String)
      (post : List String),
      steps_all_pass bfs ctx pre = true →
      is_construction bad = false →
      bfs (ctx_after bfs ctx pre) bad 3 = .ok false →
      verify_steps bfs ctx i (pre ++ bad :: post) =
        .ok (.inl (i + pre.length, bad)) := by
  intro pre
  induction pre with
  | nil =>
    intro ctx i bad post _ hbad hfail
    simp only [ctx_after] at hfail
    simp [verify_steps, hbad, hfail]
  | cons s pre ih =>
    intro ctx i bad post h hbad hfail
    have hlen : i + 1 + pre.length = i + (pre.length + 1) := by omega
    cases hc : is_construction s with
    | true =>
      cases hs : isSubstr s ctx with
      | true =>
        simp only [steps_all_pass, hc, hs, if_true] at h
        simp only [ctx_after, hc, hs, if_true] at hfail
        have := ih ctx (i + 1) bad post h hbad hfail
        simpa [verify_steps, hc, hs, hlen] using this
      | false =>
        simp only [steps_all_pass, hc, hs, if_true, Bool.false_eq_true,
          if_false] at h
        simp only [ctx_after, hc, hs, if_true, Bool.false_eq_true,
          if_false] at hfail
        have := ih (ctx ++ "; " ++ s) (i + 1) bad post h hbad hfail
        simpa [verify_steps, hc, hs, hlen] using this
    | false =>
      cases hb : bfs ctx s 3 with
      | error e => simp [steps_all_pass, hc, hb] at h
      | ok b =>
        cases b with
        | false => simp [steps_all_pass, hc, hb] at h
        | true =>
          simp only [steps_all_pass, hc, hb, Bool.false_eq_true, if_false] at h
          simp only [ctx_after, hc, Bool.false_eq_true, if_false] at hfail
          have := ih (ctx ++ "; " ++ s) (i + 1) bad post h hbad hfail
          simpa [verify_steps, hc, hb, hlen] using this

/-! ### Concrete oracle instantiations used by witnesses and
counterexamples -/

/-- A graph oracle whose resolution always succeeds with no nodes, whose
predicate check always answers false, and whose assertions are no-ops. -/
def opsSat : GraphOps (List Nat) Nat :=
  ⟨fun _ _ => .ok [], fun _ _ _ => .ok false, fun g _ _ _ => .ok g⟩

/-- A graph oracle whose name resolution raises `UnknownObject "d"`. -/
def opsUnk : GraphOps Unit Nat :=
  ⟨fun _ _ => .error (.unknownObject "d"), fun _ _ _ => .ok false,
   fun g _ _ _ => .ok g⟩

/-- A graph oracle that records every asserted fact (with its
justification) in the state. -/
def opsLog : GraphOps (List (String × List Nat × Dep)) Nat :=
  ⟨fun _ args => .ok (args.map (fun _ => 0)), fun _ _ _ => .ok false,
   fun g n ns d => .ok (g ++ [(n, ns, d)])⟩

/-- A step-check oracle that fails exactly on the clause
`cong a b c d`. -/
def bfsW : String → String → Nat → Except GeoError Bool :=
  fun _ s _ => .ok (s != "cong a b c d")

/-! ### Claims -/

/-- C1 (amended): a construction clause not already contained (as a
substring) in the accumulated context is appended unconditionally: no
graph rebuild is consulted at a construction step (the step-transition
equation holds for every check oracle), and the loop's failure outcome
`.inl` only ever carries a derivation step, never a construction — so
there is no `ConstructionError` failure path at construction steps. -/
theorem c1_construction_steps_never_checked :
    (∀ (bfs : String → String → Nat → Except GeoError Bool) (ctx : String)
        (i : Nat) (s : String) (rest : List String),
      is_construction s = true → isSubstr s ctx = false →
      verify_steps bfs ctx i (s :: rest) =
        verify_steps bfs (ctx ++ "; " ++ s) (i + 1) rest)
    ∧ (∀ (bfs : String → String → Nat → Except GeoError Bool) (ctx : String)
        (i : Nat) (steps : List String) (j : Nat) (t : String),
      verify_steps bfs ctx i steps = .ok (.inl (j, t)) →
      is_construction t = false) := by
  constructor
  · intro bfs ctx i s rest hc hs
    simp [verify_steps, hc, hs]
  · intro bfs ctx i steps
    induction steps generalizing ctx i with
    | nil => intro j t h; simp [verify_steps] at h
    | cons s rest ih =>
      intro j t h
      cases hc : is_construction s with
      | true =>
        cases hs : isSubstr s ctx with
        | true =>
          simp only [verify_steps, hc, hs, if_true] at h
          exact ih ctx (i + 1) j t h
        | false =>
          simp only [verify_steps, hc, hs, if_true, Bool.false_eq_true,
            if_false] at h
          exact ih (ctx ++ "; " ++ s) (i + 1) j t h
      | false =>
        simp only [verify_steps, hc, Bool.false_eq_true, if_false] at h
        cases hb : bfs ctx s 3 with
        | error e => rw [hb] at h; exact absurd h (by simp)
        | ok b =>
          rw [hb] at h
          cases b with
          | true => exact ih (ctx ++ "; " ++ s) (i + 1) j t h
          | false =>
            simp only [Except.ok.injEq, Sum.inl.injEq, Prod.mk.injEq] at h
            rw [← h.2]
            exact hc

/-- C1 counterexample: the problem has no goal and the proof is the
single construction step `d = invalid_construction d a b`.  Even when
every conceivable check fails (`bfs` constantly false) — in particular
when rebuilding a graph from context plus the clause would fail — and
even when every check would raise a `ConstructionError`, the run accepts
the step and ends `is_valid = true` with `steps_passed = 1`, instead of
transitioning to a failed state carrying the step index and a
`ConstructionError` message. -/
theorem c1_counterexample :
    verify_proof (fun _ _ _ => .ok false) "a b c = triangle a b c"
        "d = invalid_construction d a b" =
      .ok ⟨true, .verifiedNoGoal, 1, true⟩
    ∧ verify_proof (fun _ _ _ => .error (.constructionError "degenerate"))
        "a b c = triangle a b c" "d = invalid_construction d a b" =
      .ok ⟨true, .verifiedNoGoal, 1, true⟩ :=
  ⟨rfl, rfl⟩

/-- C1 witness: the construction-append equation at a concrete step that
no context contains. -/
theorem c1_witness :
    verify_steps (fun _ _ _ => .ok true) "a b c = triangle a b c" 0
        ["d = invalid_construction d a b"] =
      verify_steps (fun _ _ _ => .ok true)
        ("a b c = triangle a b c" ++ "; " ++ "d = invalid_construction d a b")
        1 [] :=
  c1_construction_steps_never_checked.1 (fun _ _ _ => .ok true)
    "a b c = triangle a b c" 0 "d = invalid_construction d a b" []
    (by decide) (by decide)

/-- C9: the already-in-context test for a construction step is plain
substring containment of the raw step text in the accumulated context:
a contained step is skipped with the context unchanged, any other
construction step is appended. -/
theorem c9_substring_membership
    (bfs : String → String → Nat → Except GeoError Bool) (ctx : String)
    (i : Nat) (s : String) (rest : List String) :
    is_construction s = true →
    (isSubstr s ctx = true →
      verify_steps bfs ctx i (s :: rest) = verify_steps bfs ctx (i + 1) rest)
    ∧ (isSubstr s ctx = false →
      verify_steps bfs ctx i (s :: rest) =
        verify_steps bfs (ctx ++ "; " ++ s) (i + 1) rest) := by
  intro hc
  constructor
  · intro hs; simp [verify_steps, hc, hs]
  · intro hs; simp [verify_steps, hc, hs]

/-- C9 witness: the construction `d = on_tline d b a c` occurs only
inside the different, longer clause `ad = on_tline d b a cz` of the
context, yet it is treated as already present and skipped. -/
theorem c9_witness :
    verify_steps (fun _ _ _ => .ok true) "x; ad = on_tline d b a cz" 0
        ["d = on_tline d b a c"] =
      verify_steps (fun _ _ _ => .ok true) "x; ad = on_tline d b a cz" 1 [] :=
  (c9_substring_membership (fun _ _ _ => .ok true) "x; ad = on_tline d b a cz"
    0 "d = on_tline d b a c" [] (by decide)).1 (by decide)

/-- C6: context loading handles one clause as follows: a clause
containing the construction separator is skipped; a clause whose
argument names do not resolve is skipped without error; a clause whose
predicate already holds is left unchanged; otherwise the clause is
asserted with the `Verified` (level 0) justification `verifiedDep`. -/
theorem c6_context_loader_clause {σ ν : Type} (ops : GraphOps σ ν) (g : σ)
    (clause : String) :
    (isSubstr " = " clause = true → add_verified_clause ops g clause = g)
    ∧ (∀ pname pargs e, isSubstr " = " clause = false →
        parse_predicate clause = some (pname, pargs) →
        ops.namesToNodes g pargs = .error e →
        add_verified_clause ops g clause = g)
    ∧ (∀ pname pargs nodes, isSubstr " = " clause = false →
        parse_predicate clause = some (pname, pargs) →
        ops.namesToNodes g pargs = .ok nodes →
        ops.check g pname nodes = .ok true →
        add_verified_clause ops g clause = g)
    ∧ (∀ pname pargs nodes, isSubstr " = " clause = false →
        parse_predicate clause = some (pname, pargs) →
        ops.namesToNodes g pargs = .ok nodes →
        ops.check g pname nodes = .ok false →
        add_verified_clause ops g clause =
          match ops.addPiece g pname nodes verifiedDep with
          | .error _ => g
          | .ok g2 => g2) := by
  refine ⟨?_, ?_, ?_, ?_⟩ <;> intros <;> simp_all [add_verified_clause]

/-- C6 witness: a resolvable, not-yet-true predicate clause is asserted
into the (logging) graph with the `Verified` level-0 justification. -/
theorem c6_witness :
    add_verified_clause opsLog [] "perp a d b c" =
      [("perp", [0, 0, 0, 0], verifiedDep)] :=
  ((c6_context_loader_clause opsLog [] "perp a d b c").2.2.2 "perp"
    ["a", "d", "b", "c"] [0, 0, 0, 0] (by decide) (by decide) rfl rfl).trans
    rfl

/-- C7: a `None` solution, an empty solution, or a solution that is
empty after stripping whitespace and trailing semicolons makes
`inject_solution` return the bare (stripped) problem text, so `verify`
with such a solution equals `verify` with no solution. -/
theorem c7_empty_solution_eq {σ : Type}
    (fromTxt : String → Except GeoError Problem)
    (build : Problem → Except GeoError σ)
    (solve : σ → Problem → Except GeoError String)
    (problemTxt s : String) :
    rstripSemi (pyStrip s) = "" →
    inject_solution problemTxt none = pyStrip problemTxt
    ∧ inject_solution problemTxt (some s) = pyStrip problemTxt
    ∧ verify fromTxt build solve problemTxt (some s) =
        verify fromTxt build solve problemTxt none := by
  intro h
  have e2 : inject_solution problemTxt (some s) = pyStrip problemTxt := by
    by_cases hs : s = ""
    · simp [inject_solution, hs]
    · simp [inject_solution, hs, h]
  exact ⟨rfl, e2, by simp only [verify]; rw [e2]; rfl⟩

/-- C7 witness: a solution of whitespace and semicolons only. -/
theorem c7_witness :
    inject_solution "a b c = triangle a b c ? perp a d b c" (some " ;; ") =
      pyStrip "a b c = triangle a b c ? perp a d b c" :=
  (c7_empty_solution_eq (fun _ => .ok ⟨none⟩) (fun _ => .ok (0 : Nat))
    (fun _ _ => .ok "") "a b c = triangle a b c ? perp a d b c" " ;; "
    (by decide)).2.1

/-- C10: when the injected problem text parses to a problem without a
goal, `verify` returns `False` for every graph builder and solver — in
particular it neither raises nor runs the solver. -/
theorem c10_no_goal_returns_false {σ : Type}
    (fromTxt : String → Except GeoError Problem)
    (build : Problem → Except GeoError σ)
    (solve : σ → Problem → Except GeoError String)
    (problemTxt : String) (solution : Option String) (p : Problem) :
    fromTxt (inject_solution problemTxt solution) = .ok p →
    p.goal = none →
    verify fromTxt build solve problemTxt solution = .ok false := by
  intro hf hg
  simp [verify, hf, hg]

/-- C10 witness: with a goal-less parse result, `verify` returns
`.ok false` even though both the builder and the solver would raise. -/
theorem c10_witness :
    verify (fun _ => .ok ⟨none⟩)
      (fun _ => .error (.constructionError "boom"))
      (fun (_ : Nat) _ => .error (.otherError "x"))
      "a b c = triangle a b c" none = .ok false :=
  c10_no_goal_returns_false _ _ _ "a b c = triangle a b c" none ⟨none⟩ rfl rfl

/-- C2: `steps_passed` localizes the broken step.  If the parsed steps
decompose as `pre ++ bad :: post` where every step of `pre` passes and
`bad` is a failing derivation step, `verify_proof` returns the failure
record with `steps_passed = pre.length` (the 0-based index of the first
failing step), for every `post`; and whenever all steps pass and a
result record is returned, `steps_passed` is the total step count. -/
theorem c2_steps_passed_localizes
    (bfs : String → String → Nat → Except GeoError Bool)
    (problemTxt proofDsl : String) :
    (∀ pre bad post,
      parse_steps proofDsl = pre ++ bad :: post →
      steps_all_pass bfs (pyStrip (splitQ problemTxt).1) pre = true →
      is_construction bad = false →
      bfs (ctx_after bfs (pyStrip (splitQ problemTxt).1) pre) bad 3 =
        .ok false →
      verify_proof bfs problemTxt proofDsl =
        .ok ⟨false, .logicGap (pre.length + 1) bad, pre.length, false⟩)
    ∧ (steps_all_pass bfs (pyStrip (splitQ problemTxt).1)
        (parse_steps proofDsl) = true →
      ∀ r, verify_proof bfs problemTxt proofDsl = .ok r →
        r.steps_passed = (parse_steps proofDsl).length) := by
  constructor
  · intro pre bad post hst hpass hbad hfail
    have hrun := verify_steps_first_fail bfs pre
      (pyStrip (splitQ problemTxt).1) 0 bad post hpass hbad hfail
    rw [Nat.zero_add] at hrun
    have hne : (pre ++ bad :: post).isEmpty = false := by
      cases pre <;> rfl
    simp only [verify_proof, hst, hne, Bool.false_eq_true, if_false, hrun]
  · intro hpass r hr
    cases hst : parse_steps proofDsl with
    | nil =>
      rw [hst] at hpass
      simp only [verify_proof, hst, List.isEmpty_nil, if_true,
        Except.ok.injEq] at hr
      rw [← hr]
      rfl
    | cons a as =>
      rw [hst] at hpass
      have hrun := verify_steps_all_pass bfs (a :: as)
        (pyStrip (splitQ problemTxt).1) 0 hpass
      simp only [verify_proof, hst, List.isEmpty_cons, Bool.false_eq_true,
        if_false, hrun] at hr
      by_cases hg : pyStrip (splitQ problemTxt).2 = ""
      · simp only [hg, if_true, Except.ok.injEq] at hr
        rw [← hr]
      · simp only [hg, if_false] at hr
        cases hb : bfs (ctx_after bfs (pyStrip (splitQ problemTxt).1)
            (a :: as)) (pyStrip (splitQ problemTxt).2) 10 with
        | error e => rw [hb] at hr; exact absurd hr (by simp)
        | ok b =>
          rw [hb] at hr
          cases b with
          | true =>
            simp only [Except.ok.injEq] at hr
            rw [← hr]
          | false =>
            simp only [Except.ok.injEq] at hr
            rw [← hr]

/-- C2 witness: a three-step proof whose second (derivation) step fails:
`steps_passed = 1`, and the third step is never consulted. -/
theorem c2_witness :
    verify_proof bfsW "a b c = triangle a b c ? perp a d b c"
        "d = on_tline d b a c, on_tline d c a b; cong a b c d; perp a d b c" =
      .ok ⟨false, .logicGap 2 "cong a b c d", 1, false⟩ :=
  (c2_steps_passed_localizes bfsW "a b c = triangle a b c ? perp a d b c"
    "d = on_tline d b a c, on_tline d c a b; cong a b c d; perp a d b c").1
    ["d = on_tline d b a c, on_tline d c a b"] "cong a b c d"
    ["perp a d b c"] rfl rfl rfl rfl

/-- C8 (amended): a problem without a `?` goal separator together with a
proof having at least one step, all of whose steps pass, yields
`is_valid = true` and `goal_reached = true` (with the no-global-goal
message).  A proof with no steps instead yields the
`No proof steps provided` failure record (see the counterexample). -/
theorem c8_no_goal_all_pass
    (bfs : String → String → Nat → Except GeoError Bool)
    (problemTxt proofDsl : String) :
    containsChar '?' problemTxt = false →
    parse_steps proofDsl ≠ [] →
    steps_all_pass bfs (pyStrip problemTxt) (parse_steps proofDsl) = true →
    verify_proof bfs problemTxt proofDsl =
      .ok ⟨true, .verifiedNoGoal, (parse_steps proofDsl).length, true⟩ := by
  intro hq hne hpass
  have hsplit : splitQ problemTxt = (problemTxt, "") := by
    simp [splitQ, hq]
  cases hst : parse_steps proofDsl with
  | nil => exact absurd hst hne
  | cons a as =>
    rw [hst] at hpass
    have hrun := verify_steps_all_pass bfs (a :: as) (pyStrip problemTxt)
      0 hpass
    simp only [verify_proof, hsplit, hst, List.isEmpty_cons,
      Bool.false_eq_true, if_false, hrun]
    rfl

/-- C8 counterexample: with no `?` goal and the empty proof — whose
steps (all zero of them) are vacuously individually valid, as witnessed
by an oracle that passes everything — `verify_proof` returns
`is_valid = false` and `goal_reached = false` with the no-steps message,
not `is_valid = true`. -/
theorem c8_counterexample :
    verify_proof (fun _ _ _ => .ok true) "a b c = triangle a b c" "" =
      .ok ⟨false, .noSteps, 0, false⟩
    ∧ containsChar '?' "a b c = triangle a b c" = false :=
  ⟨rfl, by decide⟩

/-- C8 witness: one individually valid construction step with no global
goal. -/
theorem c8_witness :
    verify_proof (fun _ _ _ => .ok true) "a b c = triangle a b c"
        "d = on_line d a b" = .ok ⟨true, .verifiedNoGoal, 1, true⟩ :=
  c8_no_goal_all_pass (fun _ _ _ => .ok true) "a b c = triangle a b c"
    "d = on_line d a b" (by decide) (by decide) (by decide)

/-- C3 (amended): problem-parse exceptions are caught in both entry
points (`verify` returns `False`), but the blanket no-escape guarantee
fails: an exception raised by graph construction or by the DD/AR solve
escapes `verify` whenever the parsed problem has a goal, and an
exception raised inside a proof step's derivability check escapes
`verify_proof`. -/
theorem c3_unguarded_collaborators {σ : Type}
    (fromTxt : String → Except GeoError Problem)
    (build : Problem → Except GeoError σ)
    (solve : σ → Problem → Except GeoError String)
    (bfs : String → String → Nat → Except GeoError Bool)
    (problemTxt proofDsl : String) (solution : Option String) :
    (∀ e, fromTxt (inject_solution problemTxt solution) = .error e →
      verify fromTxt build solve problemTxt solution = .ok false)
    ∧ (∀ p gl e, fromTxt (inject_solution problemTxt solution) = .ok p →
      p.goal = some gl → build p = .error e →
      verify fromTxt build solve problemTxt solution = .error e)
    ∧ (∀ p gl g e, fromTxt (inject_solution problemTxt solution) = .ok p →
      p.goal = some gl → build p = .ok g → solve g p = .error e →
      verify fromTxt build solve problemTxt solution = .error e)
    ∧ (∀ bad rest e, parse_steps proofDsl = bad :: rest →
      is_construction bad = false →
      bfs (pyStrip (splitQ problemTxt).1) bad 3 = .error e →
      verify_proof bfs problemTxt proofDsl = .error e) := by
  refine ⟨?_, ?_, ?_, ?_⟩
  · intro e hf; simp [verify, hf]
  · intro p gl e hf hg hb; simp [verify, hf, hg, hb]
  · intro p gl g e hf hg hb hs; simp [verify, hf, hg, hb, hs]
  · intro bad rest e hst hbad hb
    simp only [verify_proof, hst, List.isEmpty_cons, Bool.false_eq_true,
      if_false, verify_steps, hbad, hb]

/-- C3 counterexample: the problem parses with a goal but graph
construction raises a `ConstructionError`; the exception escapes
`verify` to the caller instead of being converted into a boolean
result. -/
theorem c3_counterexample :
    verify (fun _ => .ok ⟨some ⟨"perp", ["a", "d", "b", "c"]⟩⟩)
      (fun _ => .error (.constructionError "degenerate"))
      (fun (_ : Nat) _ => .ok "solved")
      "a b c = triangle a b c ? perp a d b c" none =
      .error (.constructionError "degenerate") := rfl

/-- C3 witness: a parse failure is caught and turned into the boolean
`False`. -/
theorem c3_witness :
    verify (fun _ => .error (.parseError "bad"))
      (fun _ => .ok (0 : Nat)) (fun _ _ => .ok "solved")
      "a b c = triangle a b c ? perp a d b c" none = .ok false :=
  (c3_unguarded_collaborators (fun _ => .error (.parseError "bad"))
    (fun _ => .ok (0 : Nat)) (fun _ _ => .ok "solved")
    (fun _ _ _ => .ok true) "a b c = triangle a b c ? perp a d b c" ""
    none).1 (.parseError "bad") rfl

/-- C4 (amended): the iterative-deepening loop contains no saturation
exit.  Even when every pass returns nothing new (`added`, `derives` and
`eq4s` all empty), the loop still attempts every remaining level —
accumulating one pass per level, as recorded by `fold_levels` — as long
as the goal check keeps answering false, and finally returns that
answer. -/
theorem c4_no_saturation_break {σ ν α β : Type} (ops : GraphOps σ ν)
    (goal : Construction) (step : σ → Nat → σ)
    (applyDer : σ → List β → Except GeoError σ) :
    (∀ g : σ, goal_holds ops goal g = .ok false) →
    ∀ (r level : Nat) (g : σ),
      bfs_levels ops goal
        (fun g2 l => .ok (step g2 l, ([] : List α), ([] : List β),
          ([] : List β)))
        applyDer r level g = .ok (false, fold_levels step r level g) := by
  intro h r
  induction r with
  | zero => intro level g; simp [bfs_levels, fold_levels, h]
  | succ r ih =>
    intro level g
    simp only [bfs_levels, h, fold_levels, List.isEmpty_nil, if_true]
    exact ih (level + 1) (step g level)

/-- C4 counterexample: the pass at level 1 produces no new facts (all
three output lists are empty), yet with `max_level = 2` the loop still
runs the level-2 pass — the state log records both levels, where the
claim requires it to stop after level 1. -/
theorem c4_counterexample :
    bfs_levels opsSat ⟨"perp", []⟩
      (fun g level => .ok (g ++ [level], ([] : List Nat), ([] : List Nat),
        ([] : List Nat)))
      (fun g _ => .ok g) 2 1 ([] : List Nat) = .ok (false, [1, 2])
    ∧ ([1, 2] : List Nat) ≠ [1] :=
  ⟨rfl, by decide⟩

/-- C4 witness: three saturating levels are all attempted. -/
theorem c4_witness :
    bfs_levels opsSat ⟨"perp", []⟩
      (fun g level => .ok (g ++ [level], ([] : List Nat), ([] : List Nat),
        ([] : List Nat)))
      (fun g _ => .ok g) 3 1 ([] : List Nat) = .ok (false, [1, 2, 3]) :=
  (c4_no_saturation_break opsSat ⟨"perp", []⟩
    (fun g level => g ++ [level]) (fun g _ => .ok g) (fun _ => rfl) 3 1
    []).trans rfl

/-- C5 (amended): parse errors and graph-build errors during a single
step's check are caught inside `run_bfs_check` and downgraded to a
false verdict, a predicate-check error while testing the goal is
downgraded to false inside `goal_holds`, and a failing step check makes
`verify_proof` record a logic-gap failure at that step's index; but an
unknown-object error raised while resolving the goal's argument names
propagates out of `goal_holds` (see the counterexample for the
resulting crash of the whole run). -/
theorem c5_single_step_error_policy {σ ν α β : Type} (ops : GraphOps σ ν)
    (fromTxt : String → Except GeoError Problem)
    (build : Problem → Except GeoError σ)
    (bfsOne : σ → Nat → Except GeoError (σ × List α × List β × List β))
    (applyDer : σ → List β → Except GeoError σ)
    (bfs : String → String → Nat → Except GeoError Bool)
    (contextStr targetStr problemTxt proofDsl : String) (maxLevel : Nat) :
    (∀ e, fromTxt (rstripSemi (pyStrip contextStr) ++ " ? " ++
        rstripSemi (pyStrip targetStr)) = .error e →
      run_bfs_check ops fromTxt build bfsOne applyDer contextStr targetStr
        maxLevel = .ok false)
    ∧ (∀ p e, fromTxt (rstripSemi (pyStrip contextStr) ++ " ? " ++
        rstripSemi (pyStrip targetStr)) = .ok p →
      build p = .error e →
      run_bfs_check ops fromTxt build bfsOne applyDer contextStr targetStr
        maxLevel = .ok false)
    ∧ (∀ goal g ns e, ops.namesToNodes g goal.args = .ok ns →
      ops.check g goal.name ns = .error e →
      goal_holds ops goal g = .ok false)
    ∧ (∀ bad rest, parse_steps proofDsl = bad :: rest →
      is_construction bad = false →
      bfs (pyStrip (splitQ problemTxt).1) bad 3 = .ok false →
      verify_proof bfs problemTxt proofDsl =
        .ok ⟨false, .logicGap 1 bad, 0, false⟩) := by
  refine ⟨?_, ?_, ?_, ?_⟩
  · intro e hf; simp [run_bfs_check, hf]
  · intro p e hf hb; simp [run_bfs_check, hf, hb]
  · intro goal g ns e hn hc; simp [goal_holds, hn, hc]
  · intro bad rest hst hbad hb
    simp only [verify_proof, hst, List.isEmpty_cons, Bool.false_eq_true,
      if_false, verify_steps, hbad, hb]

/-- C5 counterexample: the derivation step `coll a d b` mentions the
unknown point `d`; the problem parses and the graph builds, but
resolving the goal's argument names raises `UnknownObject`, which is not
caught inside the step's check — the whole `verify_proof` run aborts
with the exception instead of recording a failure at step index 0. -/
theorem c5_counterexample :
    verify_proof
      (fun c t lvl => run_bfs_check opsUnk
        (fun _ => .ok ⟨some ⟨"coll", ["a", "d", "b"]⟩⟩)
        (fun _ => .ok ())
        (fun g _ => .ok (g, ([] : List Nat), ([] : List Nat),
          ([] : List Nat)))
        (fun g _ => .ok g) c t lvl)
      "a b c = triangle a b c ? perp a d b c" "coll a d b" =
      .error (.unknownObject "d") := rfl

/-- C5 witness: a step whose check fails is recorded as a logic gap at
index 0. -/
theorem c5_witness :
    verify_proof (fun _ _ _ => .ok false)
        "a b c = triangle a b c ? perp a d b c" "coll a b d" =
      .ok ⟨false, .logicGap 1 "coll a b d", 0, false⟩ :=
  (c5_single_step_error_policy opsUnk (fun _ => .ok ⟨none⟩)
    (fun _ => .ok ())
    (fun g _ => .ok (g, ([] : List Nat), ([] : List Nat), ([] : List Nat)))
    (fun g _ => .ok g) (fun _ _ _ => .ok false) "" ""
    "a b c = triangle a b c ? perp a d b c" "coll a b d" 0).2.2.2
    "coll a b d" [] rfl (by decide) rfl

end AlphaGeo
